import Mathlib

/-!
Verification development for `xmpputils` (file `src/xmpptools.py`).

The bot-specific code of the repository is embedded shallowly:

* message bodies, stanza fields and reply strings are `List Char`
  (mirroring Python `str` values for the ASCII inputs the bot handles);
* Python `str.split(' ', 2)`, `str.strip()`, `str.replace`, `str.title()`
  and `"sep".join` are embedded as `pySplit`, `pyStrip`, `pyReplace`,
  `pyTitle` and `pyJoin`;
* the `xml.etree` calls `find` / `findall` / `findtext` / `get` used by the
  script are embedded over an `XmlElem` tree (direct-children search, which
  is all the script uses);
* the awaited reply of each network query is passed in explicitly as an
  oracle value (`IqOutcome` / `ItemsOutcome`), since the slixmpp transport
  is an external collaborator; exceptions (`IqError`, `IqTimeout`, and the
  `AttributeError` Python raises when `find` returns `None` and a method is
  called on it) are embedded as the `Except PyExn` error channel;
* each handler additionally returns the list of IQ stanzas (or disco item
  query targets) it sends, so that theorems can speak about what was put on
  the wire; the dispatcher result records which handler ran.
-/

set_option maxHeartbeats 1000000

/-- Python `str.isspace` characters relevant here (ASCII whitespace),
used by `str.strip()`. -/
def isPyWhitespace (c : Char) : Bool :=
  c == ' ' || c == '\t' || c == '\n' || c == '\r' || c == '\x0b' || c == '\x0c'

/-- Remove trailing whitespace (the right half of Python `str.strip()`). -/
def dropTrail (s : List Char) : List Char :=
  ((s.reverse).dropWhile isPyWhitespace).reverse

/-- Python `str.strip()`. -/
def pyStrip (s : List Char) : List Char :=
  dropTrail (s.dropWhile isPyWhitespace)

/-- Split off the part of `s` before the first space, together with the
rest after that space; `none` when `s` has no space. -/
def splitFirst : List Char → Option (List Char × List Char)
  | [] => none
  | c :: cs =>
    if c == ' ' then some ([], cs)
    else
      match splitFirst cs with
      | none => none
      | some p => some (c :: p.1, p.2)

/-- Python `s.split(' ', maxsplit)`: at most `maxsplit` splits at single
space characters, empty pieces kept. -/
def pySplit : Nat → List Char → List (List Char)
  | 0, s => [s]
  | ms + 1, s =>
    match splitFirst s with
    | none => [s]
    | some p => p.1 :: pySplit ms p.2

/-- Python `sep.join(pieces)`. -/
def pyJoin (sep : List Char) : List (List Char) → List Char
  | [] => []
  | [x] => x
  | x :: xs => x ++ (sep ++ pyJoin sep xs)

/-- Fuelled worker for Python `str.replace(old, new)` (all occurrences,
left to right, non-overlapping); `old` is nonempty at every use site, so
fuel `s.length` is enough. -/
def pyReplaceFuel (old new : List Char) : Nat → List Char → List Char
  | 0, s => s
  | _ + 1, [] => []
  | f + 1, c :: cs =>
    if !old.isEmpty && old.isPrefixOf (c :: cs)
    then new ++ pyReplaceFuel old new f ((c :: cs).drop old.length)
    else c :: pyReplaceFuel old new f cs

/-- Python `str.replace(old, new)`. -/
def pyReplace (old new s : List Char) : List Char :=
  pyReplaceFuel old new s.length s

/-- Worker for Python `str.title()`; the flag says whether the previous
character was alphabetic (cased). -/
def pyTitleAux : Bool → List Char → List Char
  | _, [] => []
  | prevAlpha, c :: cs =>
    if c.isAlpha then
      (if prevAlpha then c.toLower else c.toUpper) :: pyTitleAux true cs
    else c :: pyTitleAux false cs

/-- Python `str.title()` (ASCII letters). -/
def pyTitle (s : List Char) : List Char := pyTitleAux false s

/-- Python f-string rendering of a value that is either a string or `None`. -/
def pyFstrOpt (o : Option (List Char)) : List Char :=
  match o with
  | none => "None".data
  | some s => s

/-- Python truthiness of a value that is either a string or `None`. -/
def truthyOpt (o : Option (List Char)) : Bool :=
  match o with
  | none => false
  | some s => !s.isEmpty

/-- An `xml.etree.ElementTree.Element`: namespaced tag, attributes, text,
and child elements in document order. -/
structure XmlElem where
  tag : List Char
  attrs : List (List Char × List Char)
  text : Option (List Char)
  children : List XmlElem

/-- `Element.find(tag)`: first direct child with the given tag. -/
def etFind (t : List Char) (e : XmlElem) : Option XmlElem :=
  e.children.find? (fun c => c.tag == t)

/-- `Element.findall(tag)`: all direct children with the given tag, in
document order. -/
def etFindall (t : List Char) (e : XmlElem) : List XmlElem :=
  e.children.filter (fun c => c.tag == t)

/-- `Element.get(key)`: attribute lookup. -/
def etGet (k : List Char) (e : XmlElem) : Option (List Char) :=
  match e.attrs.find? (fun p => p.1 == k) with
  | some p => some p.2
  | none => none

/-- `Element.findtext(tag)`: text of the first matching direct child
(`""` when the child has no text), `none` when there is no such child. -/
def etFindtext (t : List Char) (e : XmlElem) : Option (List Char) :=
  match etFind t e with
  | some c => some (c.text.getD [])
  | none => none

/-- An outbound IQ stanza as the script builds it:
`iq['type']`, `iq['to']`, `iq['id']`, `iq['query']`. -/
structure IqStanza where
  type : List Char
  toJid : List Char
  id : List Char
  query : List Char

/-- The awaited reply of `iq.send()`: either the result stanza's XML tree,
or the raised `IqError` / `IqTimeout` (text is the rendering `str(e)`). -/
inductive IqOutcome where
  | result (xml : XmlElem)
  | iqError (text : List Char)
  | iqTimeout (text : List Char)

/-- Python exceptions that can cross the bot's code: the two caught
slixmpp exceptions, and the `AttributeError` raised when `find` returned
`None` and the script calls a method on it. -/
inductive PyExn where
  | iqError (text : List Char)
  | iqTimeout (text : List Char)
  | attributeError

/-- Decoded `jabber:iq:version` reply (`get_service_version`'s dict). -/
structure VersionInfo where
  name : Option (List Char)
  version : Option (List Char)
  os : Option (List Char)

/-- An item of the disco#items reply (`item['jid']`, `item['name']`). -/
structure ServiceItem where
  jid : List Char
  name : Option (List Char)

/-- The awaited reply of the xep_0030 plugin's `get_items` (the plugin
itself is external slixmpp code): the decoded `disco_items`, or the raised
`IqError` / `IqTimeout`. -/
inductive ItemsOutcome where
  | items (its : List ServiceItem)
  | iqError (text : List Char)
  | iqTimeout (text : List Char)

/-- The IQ built by `get_service_version` (lines 107-111 of the source):
note the constant stanza id. -/
def get_service_version_iq (server : List Char) : IqStanza :=
  { type := "get".data
    toJid := server
    id := "version_1".data
    query := "jabber:iq:version".data }

/-- `get_service_version` (source lines 106-119): sends the IQ, then
decodes `name` / `version` / `os` from the `jabber:iq:version` query child
of the result; when that child is absent, `find` returns `None` and the
subsequent `findtext` raises `AttributeError`. Returns the sent stanzas
alongside the outcome. -/
def get_service_version (outcome : IqOutcome) (server : List Char) :
    List IqStanza × Except PyExn VersionInfo :=
  ([get_service_version_iq server],
   match outcome with
   | .iqError t => .error (.iqError t)
   | .iqTimeout t => .error (.iqTimeout t)
   | .result xml =>
     match etFind ("\x7bjabber:iq:version\x7dquery".data) xml with
     | none => .error .attributeError
     | some q =>
       .ok { name := etFindtext ("\x7bjabber:iq:version\x7dname".data) q
             version := etFindtext ("\x7bjabber:iq:version\x7dversion".data) q
             os := etFindtext ("\x7bjabber:iq:version\x7dos".data) q })

/-- The IQ built by `get_service_contact_info` (source lines 127-131):
note the constant stanza id. -/
def get_service_contact_info_iq (service : List Char) : IqStanza :=
  { type := "get".data
    toJid := service
    id := "disco_info_1".data
    query := "http://jabber.org/protocol/disco#info".data }

/-- The seven recognized contact categories (source line 140). -/
def contact_categories : List (List Char) :=
  ["abuse-addresses".data, "admin-addresses".data, "feedback-addresses".data,
   "sales-addresses".data, "security-addresses".data, "status-addresses".data,
   "support-addresses".data]

/-- A Python dict as an insertion-ordered association list. -/
abbrev ContactInfo := List (List Char × List (Option (List Char)))

/-- Python dict assignment `d[k] = v`: update in place when the key is
present, append otherwise. -/
def dictSet (d : ContactInfo) (k : List Char) (v : List (Option (List Char))) :
    ContactInfo :=
  if d.any (fun p => p.1 == k)
  then d.map (fun p => if p.1 == k then (p.1, v) else p)
  else d ++ [(k, v)]

/-- The value texts of one data-form field
(`[value.text for value in field.findall('...value')]`, source line 141). -/
def field_values (f : XmlElem) : List (Option (List Char)) :=
  (etFindall ("\x7bjabber:x:data\x7dvalue".data) f).map (fun v => v.text)

/-- The body of the inner loop of `get_service_contact_info`
(source lines 139-141): look up `var`, and record the field's value texts
when `var` is a recognized category. -/
def fieldStep (ci : ContactInfo) (field : XmlElem) : ContactInfo :=
  match etGet ("var".data) field with
  | some var =>
    if contact_categories.contains var
    then dictSet ci var (field_values field)
    else ci
  | none => ci

/-- Whether a data-form element has `type="result"` (source line 137). -/
def formResult (x : XmlElem) : Bool :=
  etGet ("type".data) x == some ("result".data)

/-- The body of the outer loop of `get_service_contact_info`
(source lines 136-141): process the fields of each `type="result"` form. -/
def formStep (ci : ContactInfo) (x : XmlElem) : ContactInfo :=
  if formResult x
  then (etFindall ("\x7bjabber:x:data\x7dfield".data) x).foldl fieldStep ci
  else ci

/-- `get_service_contact_info` (source lines 126-142): sends the disco#info
IQ, locates the query child (`AttributeError` via `findall` on `None` when
absent), then folds the nested loops over `jabber:x:data` forms and their
fields into a dict. Returns the sent stanzas alongside the outcome. -/
def get_service_contact_info (outcome : IqOutcome) (service : List Char) :
    List IqStanza × Except PyExn ContactInfo :=
  ([get_service_contact_info_iq service],
   match outcome with
   | .iqError t => .error (.iqError t)
   | .iqTimeout t => .error (.iqTimeout t)
   | .result xml =>
     match etFind ("\x7bhttp://jabber.org/protocol/disco#info\x7dquery".data) xml with
     | none => .error .attributeError
     | some q =>
       .ok ((etFindall ("\x7bjabber:x:data\x7dx".data) q).foldl formStep []))

/-- The usage text of `cmd_version` (source line 59). -/
def version_usage : List Char :=
  "!xmpp version - shows the version of an XMPP service.\nUsage: !xmpp version <service>".data

/-- The usage text of `cmd_items` (source line 73). -/
def items_usage : List Char :=
  "!xmpp items - shows the items of an XMPP service.\nUsage: !xmpp items <service>".data

/-- The usage text of `cmd_contact` (source line 88). -/
def contact_usage : List Char :=
  "!xmpp contact - shows the contact information of an XMPP service.\nUsage: !xmpp contact <service>".data

/-- The reply of `cmd_help` (source line 55). -/
def help_msg : List Char :=
  ("Available commands:\n!xmpp version - shows the version of an XMPP service.\n!xmpp items - shows the items of an XMPP service.\n!xmpp contact - shows the contact information of an XMPP service.\n!xmpp help - displays this message.").data

/-- The prompt for a bare trigger (source line 47). -/
def prompt_msg : List Char :=
  "Use \"!xmpp help\" to list all commands.".data

/-- The unknown-command reply (source line 52). -/
def unknown_msg : List Char :=
  "Unknown command. Use \"!xmpp help\" to list all commands.".data

/-- `cmd_version` (source lines 57-69): usage text when the argument is
missing or blank; otherwise query the service and format the reply, catching
`IqError` / `IqTimeout` only. Returns the sent IQ stanzas alongside the
response (`Except.error` = an uncaught Python exception). -/
def cmd_version (outcome : IqOutcome) (parts : List (List Char)) :
    List IqStanza × Except PyExn (List Char) :=
  match parts with
  | _ :: _ :: arg :: _ =>
    if pyStrip arg == [] then ([], .ok version_usage)
    else
      let server := pyStrip arg
      let sr := get_service_version outcome server
      (sr.1,
       match sr.2 with
       | .ok vi =>
         .ok (if truthyOpt vi.os
              then server ++ (" is running ".data ++ (pyFstrOpt vi.name ++
                   (" ".data ++ (pyFstrOpt vi.version ++ (" on ".data ++
                   (pyFstrOpt vi.os ++ ".".data))))))
              else server ++ (" is running ".data ++ (pyFstrOpt vi.name ++
                   (" ".data ++ (pyFstrOpt vi.version ++ ".".data)))))
       | .error (.iqError t) =>
         .ok ("Could not retrieve version for ".data ++ (server ++ (": ".data ++ t)))
       | .error (.iqTimeout t) =>
         .ok ("Could not retrieve version for ".data ++ (server ++ (": ".data ++ t)))
       | .error e => .error e)
  | _ => ([], .ok version_usage)

/-- One line of the items listing (source line 79):
`f"{item['jid']}" + (f" - {item['name']}" if item['name'] else "")`. -/
def item_line (it : ServiceItem) : List Char :=
  it.jid ++ (if truthyOpt it.name then " - ".data ++ pyFstrOpt it.name else [])

/-- `cmd_items` (source lines 71-84): usage text when the argument is
missing or blank; otherwise query the service via the xep_0030 plugin and
format the item list, catching `IqError` / `IqTimeout`. Returns the list of
queried service JIDs alongside the response. -/
def cmd_items (outcome : ItemsOutcome) (parts : List (List Char)) :
    List (List Char) × Except PyExn (List Char) :=
  match parts with
  | _ :: _ :: arg :: _ =>
    if pyStrip arg == [] then ([], .ok items_usage)
    else
      let service := pyStrip arg
      ([service],
       match outcome with
       | .items its =>
         if !its.isEmpty then
           .ok ("Items for service ".data ++ (service ++ (":\n".data ++
                pyJoin ("\n".data) (its.map item_line))))
         else
           .ok ("No items found for service ".data ++ (service ++ ".".data))
       | .iqError t =>
         .ok ("Could not retrieve items for ".data ++ (service ++ (": ".data ++ t)))
       | .iqTimeout t =>
         .ok ("Could not retrieve items for ".data ++ (service ++ (": ".data ++ t))))
  | _ => ([], .ok items_usage)

/-- The category heading of the contact listing (source line 96):
`field.replace('-addresses', '').replace('-', ' ').title().strip()`. -/
def contact_field_name (field : List Char) : List Char :=
  pyStrip (pyTitle (pyReplace ("-".data) (" ".data) (pyReplace ("-addresses".data) [] field)))

/-- One dict entry of the contact listing (source lines 94-99). -/
def contact_entry (resp : List Char) (p : List Char × List (Option (List Char))) :
    List Char :=
  if !p.2.isEmpty then
    resp ++ ("\n".data ++ (contact_field_name p.1 ++ (":\n".data ++
      (pyJoin ("\n".data) (p.2.map (fun v => "  - ".data ++ pyFstrOpt v)) ++ "\n".data))))
  else resp

/-- `cmd_contact` (source lines 86-104): usage text when the argument is
missing or blank; otherwise query the service and format the contact dict,
catching `IqError` / `IqTimeout` only. Returns the sent IQ stanzas
alongside the response. -/
def cmd_contact (outcome : IqOutcome) (parts : List (List Char)) :
    List IqStanza × Except PyExn (List Char) :=
  match parts with
  | _ :: _ :: arg :: _ =>
    if pyStrip arg == [] then ([], .ok contact_usage)
    else
      let service := pyStrip arg
      let sr := get_service_contact_info outcome service
      (sr.1,
       match sr.2 with
       | .ok ci =>
         if !ci.isEmpty then
           .ok (ci.foldl contact_entry
                  ("Contact information for service ".data ++ (service ++ ":\n".data)))
         else
           .ok ("No contact information found for service ".data ++ (service ++ ".".data))
       | .error (.iqError t) =>
         .ok ("Could not retrieve contact information for ".data ++ (service ++ (": ".data ++ t)))
       | .error (.iqTimeout t) =>
         .ok ("Could not retrieve contact information for ".data ++ (service ++ (": ".data ++ t)))
       | .error e => .error e)
  | _ => ([], .ok contact_usage)

/-- The command handlers registered in `self.commands` (source lines 21-26). -/
inductive Handler where
  | help
  | version
  | items
  | contact

/-- The awaited reply each network query would get, passed in explicitly
since the slixmpp transport is an external collaborator. -/
structure Oracles where
  version : IqOutcome
  items : ItemsOutcome
  contact : IqOutcome

/-- What one run of `handle_command` did: which handler ran (if any), what
was sent on the wire by each query family, and the returned reply
(`Except.error` = an uncaught Python exception crossing `handle_command`). -/
structure DispatchResult where
  invoked : Option Handler
  sentVersionIqs : List IqStanza
  sentContactIqs : List IqStanza
  sentItemsQueries : List (List Char)
  response : Except PyExn (List Char)

/-- A dispatch outcome in which no handler ran and nothing was sent. -/
def noDispatch (r : Except PyExn (List Char)) : DispatchResult :=
  { invoked := none
    sentVersionIqs := []
    sentContactIqs := []
    sentItemsQueries := []
    response := r }

/-- The part of `handle_command` after `parts = body.split(' ', 2)`
(source lines 46-52): prompt when there is no command token or it is blank,
else look the stripped token up in the command table, with the fixed
unknown-command reply as fallback. -/
def dispatch_parts (o : Oracles) (parts : List (List Char)) : DispatchResult :=
  match parts with
  | _ :: p1 :: _ =>
    if pyStrip p1 == [] then noDispatch (.ok prompt_msg)
    else
      let command := pyStrip p1
      if command == "help".data then
        { invoked := some .help
          sentVersionIqs := []
          sentContactIqs := []
          sentItemsQueries := []
          response := .ok help_msg }
      else if command == "version".data then
        let r := cmd_version o.version parts
        { invoked := some .version
          sentVersionIqs := r.1
          sentContactIqs := []
          sentItemsQueries := []
          response := r.2 }
      else if command == "items".data then
        let r := cmd_items o.items parts
        { invoked := some .items
          sentVersionIqs := []
          sentContactIqs := []
          sentItemsQueries := r.1
          response := r.2 }
      else if command == "contact".data then
        let r := cmd_contact o.contact parts
        { invoked := some .contact
          sentVersionIqs := []
          sentContactIqs := r.1
          sentItemsQueries := []
          response := r.2 }
      else noDispatch (.ok unknown_msg)
  | _ => noDispatch (.ok prompt_msg)

/-- `handle_command` (source lines 44-52): split the body at spaces into at
most three parts, then dispatch on the second part. -/
def handle_command (o : Oracles) (body : List Char) : DispatchResult :=
  dispatch_parts o (pySplit 2 body)

/-- A groupchat message as `muc_message` sees it: `msg['mucnick']` and
`msg['body']`. -/
structure MucMsg where
  mucnick : List Char
  body : List Char

/-- `muc_message` (source lines 34-37): dispatch (and reply) only when the
sender nickname differs from the bot's own nickname and the body starts
with the trigger; `none` means the dispatcher was not invoked and no reply
was sent. -/
def muc_message (o : Oracles) (nick : List Char) (msg : MucMsg) :
    Option DispatchResult :=
  if !(msg.mucnick == nick) && ("!xmpp".data).isPrefixOf msg.body
  then some (handle_command o msg.body)
  else none

/-- Whether a data-form field's `var` attribute is one of the recognized
contact categories. -/
def fieldRecognized (f : XmlElem) : Bool :=
  match etGet ("var".data) f with
  | some var => contact_categories.contains var
  | none => false

/-- The `var` attribute of a data-form field (defaulting to `[]`). -/
def fieldVar (f : XmlElem) : List Char :=
  (etGet ("var".data) f).getD []

/-- Concatenation of the images of a list map (document-order flattening). -/
def concatMapL {α β : Type} (f : α → List β) : List α → List β
  | [] => []
  | a :: l => f a ++ concatMapL f l

/-- The recognized fields of a list of candidate data-form elements: the
fields of the `type="result"` forms whose `var` is a recognized category,
in document order. -/
def recFieldsForms (xs : List XmlElem) : List XmlElem :=
  concatMapL
    (fun x => (etFindall ("\x7bjabber:x:data\x7dfield".data) x).filter fieldRecognized)
    (xs.filter formResult)

/-- The recognized fields of a disco#info query element. -/
def recognized_result_fields (q : XmlElem) : List XmlElem :=
  recFieldsForms (etFindall ("\x7bjabber:x:data\x7dx".data) q)

/-- Specification-side definition, following the claim's words: the
ContactInfo holding exactly the recognized fields, each mapped to all of
its value texts in document order. -/
def contactInfoSpec (q : XmlElem) : ContactInfo :=
  (recognized_result_fields q).map (fun f => (fieldVar f, field_values f))

/-- A version-query result stanza whose query child carries
name=Prosody, version=0.12 and no os element. -/
def versionResultXmlNoOs : XmlElem :=
  { tag := "iq".data
    attrs := []
    text := none
    children := [
      { tag := "\x7bjabber:iq:version\x7dquery".data
        attrs := []
        text := none
        children := [
          { tag := "\x7bjabber:iq:version\x7dname".data
            attrs := []
            text := some ("Prosody".data)
            children := [] },
          { tag := "\x7bjabber:iq:version\x7dversion".data
            attrs := []
            text := some ("0.12".data)
            children := [] } ] } ] }

/-- The same version-query result with an os element carrying text `os`. -/
def versionResultXmlOs (os : List Char) : XmlElem :=
  { tag := "iq".data
    attrs := []
    text := none
    children := [
      { tag := "\x7bjabber:iq:version\x7dquery".data
        attrs := []
        text := none
        children := [
          { tag := "\x7bjabber:iq:version\x7dname".data
            attrs := []
            text := some ("Prosody".data)
            children := [] },
          { tag := "\x7bjabber:iq:version\x7dversion".data
            attrs := []
            text := some ("0.12".data)
            children := [] },
          { tag := "\x7bjabber:iq:version\x7dos".data
            attrs := []
            text := some os
            children := [] } ] } ] }

/-- A result stanza that lacks the expected query child element. -/
def xmlNoQuery : XmlElem :=
  { tag := "iq".data, attrs := [], text := none, children := [] }

/-- The disco#info result of the claimed contact example: one
`type="result"` data-form with an `admin-addresses` field (two values) and
an `irrelevant-field` field (one value). -/
def exampleContactXml : XmlElem :=
  { tag := "iq".data
    attrs := []
    text := none
    children := [
      { tag := "\x7bhttp://jabber.org/protocol/disco#info\x7dquery".data
        attrs := []
        text := none
        children := [
          { tag := "\x7bjabber:x:data\x7dx".data
            attrs := [("type".data, "result".data)]
            text := none
            children := [
              { tag := "\x7bjabber:x:data\x7dfield".data
                attrs := [("var".data, "admin-addresses".data)]
                text := none
                children := [
                  { tag := "\x7bjabber:x:data\x7dvalue".data
                    attrs := []
                    text := some ("v1".data)
                    children := [] },
                  { tag := "\x7bjabber:x:data\x7dvalue".data
                    attrs := []
                    text := some ("v2".data)
                    children := [] } ] },
              { tag := "\x7bjabber:x:data\x7dfield".data
                attrs := [("var".data, "irrelevant-field".data)]
                text := none
                children := [
                  { tag := "\x7bjabber:x:data\x7dvalue".data
                    attrs := []
                    text := some ("v3".data)
                    children := [] } ] } ] } ] } ] }

/-- The query element inside `exampleContactXml`. -/
def exampleContactQuery : XmlElem :=
  { tag := "\x7bhttp://jabber.org/protocol/disco#info\x7dquery".data
    attrs := []
    text := none
    children := [
      { tag := "\x7bjabber:x:data\x7dx".data
        attrs := [("type".data, "result".data)]
        text := none
        children := [
          { tag := "\x7bjabber:x:data\x7dfield".data
            attrs := [("var".data, "admin-addresses".data)]
            text := none
            children := [
              { tag := "\x7bjabber:x:data\x7dvalue".data
                attrs := []
                text := some ("v1".data)
                children := [] },
              { tag := "\x7bjabber:x:data\x7dvalue".data
                attrs := []
                text := some ("v2".data)
                children := [] } ] },
          { tag := "\x7bjabber:x:data\x7dfield".data
            attrs := [("var".data, "irrelevant-field".data)]
            text := none
            children := [
              { tag := "\x7bjabber:x:data\x7dvalue".data
                attrs := []
                text := some ("v3".data)
                children := [] } ] } ] } ] }

/-- A fixed oracle assignment used by concrete witnesses. -/
def defaultOracles : Oracles :=
  { version := .iqTimeout ("t".data)
    items := .items []
    contact := .iqTimeout ("t".data) }

lemma splitFirst_eq_none (s : List Char) (h : ' ' ∉ s) : splitFirst s = none := by
  induction s with
  | nil => rfl
  | cons c cs ih =>
    have hc : (c == ' ') = false := by
      simp only [beq_eq_false_iff_ne]
      intro e
      exact h (e ▸ List.mem_cons_self c cs)
    have hcs : ' ' ∉ cs := fun hm => h (List.mem_cons_of_mem _ hm)
    simp only [splitFirst, hc, Bool.false_eq_true, if_false, ih hcs]

lemma splitFirst_append_left (a b : List Char) (h : ' ' ∉ a) :
    splitFirst (a ++ b) = Option.map (fun p => (a ++ p.1, p.2)) (splitFirst b) := by
  induction a with
  | nil =>
    cases hb : splitFirst b with
    | none => simp [hb]
    | some p => simp [hb]
  | cons c cs ih =>
    have hc : (c == ' ') = false := by
      simp only [beq_eq_false_iff_ne]
      intro e
      exact h (e ▸ List.mem_cons_self c cs)
    have hcs : ' ' ∉ cs := fun hm => h (List.mem_cons_of_mem _ hm)
    simp only [List.cons_append, splitFirst, hc, Bool.false_eq_true, if_false,
      List.append_eq, ih hcs]
    cases hb : splitFirst b with
    | none => rfl
    | some p => rfl

lemma splitFirst_space (a b : List Char) (h : ' ' ∉ a) :
    splitFirst (a ++ ' ' :: b) = some (a, b) := by
  rw [splitFirst_append_left a (' ' :: b) h]
  simp [splitFirst]

lemma splitFirst_sound :
    ∀ {s a b : List Char}, splitFirst s = some (a, b) → s = a ++ ' ' :: b := by
  intro s
  induction s with
  | nil => intro a b hs; simp [splitFirst] at hs
  | cons c cs ih =>
    intro a b hs
    by_cases hc : (c == ' ') = true
    · have hc' : c = ' ' := by simpa [beq_iff_eq] using hc
      simp only [splitFirst, hc, if_true] at hs
      cases hs
      simp [hc']
    · have hc'' : (c == ' ') = false := by simpa using hc
      simp only [splitFirst, hc'', Bool.false_eq_true, if_false] at hs
      cases hp : splitFirst cs with
      | none => rw [hp] at hs; simp at hs
      | some p =>
        rw [hp] at hs
        simp only [Option.some.injEq] at hs
        have hcs := ih hp
        cases hs
        simp_all

lemma pySplit_length (ms : Nat) : ∀ s : List Char, (pySplit ms s).length ≤ ms + 1 := by
  induction ms with
  | zero => intro s; simp [pySplit]
  | succ n ih =>
    intro s
    cases hp : splitFirst s with
    | none => simp [pySplit, hp]
    | some p =>
      simp only [pySplit, hp, List.length_cons]
      exact Nat.succ_le_succ (ih p.2)

lemma dropWhile_append_of_all {p : Char → Bool} {u : List Char} (v : List Char)
    (h : ∀ c ∈ u, p c = true) :
    List.dropWhile p (u ++ v) = List.dropWhile p v := by
  induction u with
  | nil => rfl
  | cons c cs ih =>
    have hc := h c (List.mem_cons_self c cs)
    simp only [List.cons_append, List.dropWhile, hc]
    exact ih (fun d hd => h d (List.mem_cons_of_mem _ hd))

lemma dropTrail_append_ws {w : List Char} (u : List Char)
    (h : ∀ c ∈ w, isPyWhitespace c = true) :
    dropTrail (u ++ w) = dropTrail u := by
  unfold dropTrail
  rw [List.reverse_append]
  rw [dropWhile_append_of_all u.reverse (fun c hc => h c (List.mem_reverse.mp hc))]

lemma pyStrip_append_ws {w : List Char} (a : List Char)
    (h : ∀ c ∈ w, isPyWhitespace c = true) :
    pyStrip (a ++ w) = pyStrip a := by
  induction a with
  | nil =>
    have hw : List.dropWhile isPyWhitespace w = [] := by
      have := dropWhile_append_of_all ([] : List Char) h
      simpa using this
    simp [pyStrip, hw, dropTrail]
  | cons c cs ih =>
    by_cases hc : isPyWhitespace c = true
    · unfold pyStrip
      simp only [List.cons_append, List.dropWhile, hc]
      unfold pyStrip at ih
      exact ih
    · have hc' : isPyWhitespace c = false := by simpa using hc
      unfold pyStrip
      simp only [List.cons_append, List.dropWhile, hc', Bool.false_eq_true, if_false]
      show dropTrail ((c :: cs) ++ w) = dropTrail (c :: cs)
      exact dropTrail_append_ws (c :: cs) h

lemma pyStrip_ws {w : List Char} (h : ∀ c ∈ w, isPyWhitespace c = true) :
    pyStrip w = [] := by
  have := pyStrip_append_ws ([] : List Char) h
  simpa using this

lemma isPrefixOf_append_self (a b : List Char) : a.isPrefixOf (a ++ b) = true := by
  induction a with
  | nil =>
    cases b with
    | nil => rfl
    | cons c cs => rfl
  | cons c cs ih =>
    show (c == c && cs.isPrefixOf (cs ++ b)) = true
    simp [ih]

lemma dispatch_parts_head (o : Oracles) (h1 h2 : List Char) (t : List (List Char)) :
    dispatch_parts o (h1 :: t) = dispatch_parts o (h2 :: t) := by
  cases t with
  | nil => rfl
  | cons p1 t2 =>
    cases t2 with
    | nil => rfl
    | cons a r => rfl

lemma splitFirst_none_no_space :
    ∀ {s : List Char}, splitFirst s = none → ' ' ∉ s := by
  intro s
  induction s with
  | nil => intro _ hm; cases hm
  | cons c cs ih =>
    intro hs hm
    by_cases hc : (c == ' ') = true
    · simp only [splitFirst, hc, if_true] at hs
      simp at hs
    · have hc' : (c == ' ') = false := by simpa using hc
      simp only [splitFirst, hc', Bool.false_eq_true, if_false] at hs
      cases hp : splitFirst cs with
      | none =>
        rcases List.mem_cons.mp hm with he | hm2
        · rw [he] at hc'; simp at hc'
        · exact ih hp hm2
      | some p => rw [hp] at hs; simp at hs

lemma splitFirst_left_no_space :
    ∀ {s a b : List Char}, splitFirst s = some (a, b) → ' ' ∉ a := by
  intro s
  induction s with
  | nil => intro a b hs; simp [splitFirst] at hs
  | cons c cs ih =>
    intro a b hs
    by_cases hc : (c == ' ') = true
    · simp only [splitFirst, hc, if_true, Option.some.injEq] at hs
      cases hs
      simp_all
    · have hc' : (c == ' ') = false := by simpa using hc
      simp only [splitFirst, hc', Bool.false_eq_true, if_false] at hs
      cases hp : splitFirst cs with
      | none => rw [hp] at hs; simp at hs
      | some p =>
        rw [hp] at hs
        simp only [Option.some.injEq] at hs
        have hcs := ih hp
        cases hs
        intro hm
        rcases List.mem_cons.mp hm with he | hm2
        · rw [← he] at hc'; simp at hc'
        · exact hcs hm2

lemma pySplit_succ_space (ms : Nat) (a r : List Char) (ha : ' ' ∉ a) :
    pySplit (ms + 1) (a ++ ' ' :: r) = a :: pySplit ms r := by
  show (match splitFirst (a ++ ' ' :: r) with
        | none => [a ++ ' ' :: r]
        | some p => p.1 :: pySplit ms p.2) = a :: pySplit ms r
  rw [splitFirst_space a r ha]

lemma pySplit_succ_nospace (ms : Nat) (s : List Char) (hs : ' ' ∉ s) :
    pySplit (ms + 1) s = [s] := by
  show (match splitFirst s with
        | none => [s]
        | some p => p.1 :: pySplit ms p.2) = [s]
  rw [splitFirst_eq_none s hs]

lemma mem_append_trigger {junk : List Char} (h : ' ' ∉ junk)
    (hm : ' ' ∈ "!xmpp".data ++ junk) : False := by
  rcases List.mem_append.mp hm with h1 | h2
  · revert h1; decide
  · exact h h2

lemma parts_cmd_arg (cword arg : List Char) (hc : ' ' ∉ cword) :
    pySplit 2 ("!xmpp".data ++ ' ' :: (cword ++ ' ' :: arg))
      = ["!xmpp".data, cword, arg] := by
  have h1 : pySplit 2 ("!xmpp".data ++ ' ' :: (cword ++ ' ' :: arg))
      = "!xmpp".data :: pySplit 1 (cword ++ ' ' :: arg) :=
    pySplit_succ_space 1 ("!xmpp".data) (cword ++ ' ' :: arg) (by decide)
  have h2 : pySplit 1 (cword ++ ' ' :: arg) = cword :: pySplit 0 arg :=
    pySplit_succ_space 0 cword arg hc
  rw [h1, h2]
  rfl

/-- C1: the claim states that every outbound IQ carries a non-empty id that
is unique within the stream's lifetime, so distinct diagnostic queries get
distinct ids. The code instead hardcodes the id: the IQ stanzas sent by two
distinct version queries on the same stream both carry the constant id
"version_1" (non-empty, but reused), and every contact query likewise
reuses "disco_info_1". -/
theorem version_iq_id_collision :
    (handle_command defaultOracles ("!xmpp version a.example".data)).sentVersionIqs.map IqStanza.id
      = ["version_1".data]
    ∧ (handle_command defaultOracles ("!xmpp version b.example".data)).sentVersionIqs.map IqStanza.id
      = ["version_1".data]
    ∧ (handle_command defaultOracles ("!xmpp contact a.example".data)).sentContactIqs.map IqStanza.id
      = ["disco_info_1".data]
    ∧ (handle_command defaultOracles ("!xmpp contact b.example".data)).sentContactIqs.map IqStanza.id
      = ["disco_info_1".data]
    ∧ ("version_1".data : List Char) ≠ [] :=
  ⟨rfl, rfl, rfl, rfl, by decide⟩

/-- C8: a groupchat message whose sender nickname equals the bot's own
nickname is never forwarded to the command dispatcher and no reply is sent,
for every message body (including trigger-prefixed ones). -/
theorem self_message_not_dispatched (o : Oracles) (nick body : List Char) :
    muc_message o nick { mucnick := nick, body := body } = none := by
  simp [muc_message]

/-- C9: invocation parsing splits the body into at most a command token and
a single free-text argument; for a body of the shape
`!xmpp <cmd> <arg>` the third part handed to the command handler is the
argument verbatim, embedded spaces included. -/
theorem argument_spaces_preserved (cmd arg : List Char) (hc : ' ' ∉ cmd) :
    pySplit 2 ("!xmpp ".data ++ (cmd ++ (" ".data ++ arg)))
      = ["!xmpp".data, cmd, arg]
    ∧ ∀ body : List Char, (pySplit 2 body).length ≤ 3 := by
  constructor
  · exact parts_cmd_arg cmd arg hc
  · intro body
    exact pySplit_length 2 body

/-- Witness for C9 at a concrete argument with embedded spaces. -/
theorem argument_spaces_preserved_witness :
    pySplit 2 ("!xmpp ".data ++ ("version".data ++ (" ".data ++ "a b c".data)))
      = ["!xmpp".data, "version".data, "a b c".data] :=
  (argument_spaces_preserved ("version".data) ("a b c".data) (by decide)).1

/-- C10: the trigger check only tests that the body starts with the
characters `!xmpp`, and the first space-delimited token is discarded
unexamined: a body whose first token is `!xmpp` followed by extra
non-space characters is still accepted by the trigger, and dispatch is
decided solely by the remaining tokens. -/
theorem trigger_prefix_loose (junk s : List Char) (o : Oracles) (h : ' ' ∉ junk) :
    ("!xmpp".data).isPrefixOf ("!xmpp".data ++ (junk ++ (" ".data ++ s))) = true
    ∧ handle_command o ("!xmpp".data ++ (junk ++ (" ".data ++ s)))
      = handle_command o ("!xmpp ".data ++ s) := by
  constructor
  · exact isPrefixOf_append_self _ _
  · show handle_command o ("!xmpp".data ++ (junk ++ (' ' :: s)))
      = handle_command o ("!xmpp".data ++ ' ' :: s)
    unfold handle_command
    have hl : pySplit 2 (("!xmpp".data ++ junk) ++ ' ' :: s)
        = ("!xmpp".data ++ junk) :: pySplit 1 s :=
      pySplit_succ_space 1 _ s (fun hm => mem_append_trigger h hm)
    have hr : pySplit 2 ("!xmpp".data ++ ' ' :: s) = "!xmpp".data :: pySplit 1 s :=
      pySplit_succ_space 1 ("!xmpp".data) s (by decide)
    rw [show "!xmpp".data ++ (junk ++ (' ' :: s)) = ("!xmpp".data ++ junk) ++ ' ' :: s from
      (List.append_assoc _ _ _).symm]
    rw [hl, hr]
    exact dispatch_parts_head o _ _ _

/-- Witness for C10: `!xmppabc version x` is accepted and dispatched the
same way as `!xmpp version x`. -/
theorem trigger_prefix_loose_witness :
    ("!xmpp".data).isPrefixOf ("!xmpp".data ++ ("abc".data ++ (" ".data ++ "version x".data))) = true
    ∧ handle_command defaultOracles ("!xmpp".data ++ ("abc".data ++ (" ".data ++ "version x".data)))
      = handle_command defaultOracles ("!xmpp ".data ++ "version x".data) :=
  trigger_prefix_loose ("abc".data) ("version x".data) defaultOracles (by decide)

/-- C3 counterexample: when the service reply carries os=Linux, the code
returns "xmpp.example.com is running Prosody 0.12 on Linux." (the period
moves to the end), which is not the os-absent string with " on Linux"
appended, as the claim states. -/
theorem version_os_reply_counterexample :
    (handle_command { defaultOracles with version := .result (versionResultXmlOs ("Linux".data)) }
        ("!xmpp version xmpp.example.com".data)).response
      = .ok ("xmpp.example.com is running Prosody 0.12 on Linux.".data)
    ∧ ("xmpp.example.com is running Prosody 0.12 on Linux.".data : List Char)
      ≠ "xmpp.example.com is running Prosody 0.12.".data ++ " on Linux".data :=
  ⟨rfl, by decide⟩

/-- C3 (amended): `!xmpp version xmpp.example.com` against a service that
replies name=Prosody, version=0.12 and no os returns exactly
"xmpp.example.com is running Prosody 0.12."; when the reply carries a
non-empty os element the reply is
"xmpp.example.com is running Prosody 0.12 on <os>." (the os-absent string
with its final period replaced by " on <os>."). -/
theorem version_reply_format (os : List Char) (hos : os ≠ []) :
    (handle_command { defaultOracles with version := .result versionResultXmlNoOs }
        ("!xmpp version xmpp.example.com".data)).response
      = .ok ("xmpp.example.com is running Prosody 0.12.".data)
    ∧ (handle_command { defaultOracles with version := .result (versionResultXmlOs os) }
        ("!xmpp version xmpp.example.com".data)).response
      = .ok ("xmpp.example.com is running Prosody 0.12 on ".data ++ (os ++ ".".data)) := by
  constructor
  · rfl
  · obtain ⟨c, cs, rfl⟩ : ∃ c cs, os = c :: cs := by
      cases os with
      | nil => exact absurd rfl hos
      | cons c cs => exact ⟨c, cs, rfl⟩
    rfl

/-- Witness for C3 (amended) at os = Linux. -/
theorem version_reply_format_witness :
    (handle_command { defaultOracles with version := .result (versionResultXmlOs ("Linux".data)) }
        ("!xmpp version xmpp.example.com".data)).response
      = .ok ("xmpp.example.com is running Prosody 0.12 on ".data ++ ("Linux".data ++ ".".data)) :=
  (version_reply_format ("Linux".data) (by decide)).2

lemma beq_nil_false {service : List Char} (hne : service ≠ []) :
    (service == ([] : List Char)) = false := by
  rw [beq_eq_false_iff_ne]
  exact hne

lemma cmd_version_iqerror (e p0 t service : List Char)
    (hst : pyStrip service = service) (hne : service ≠ []) :
    (cmd_version (.iqError e) [p0, t, service]).2
      = .ok ("Could not retrieve version for ".data ++ (service ++ (": ".data ++ e))) := by
  simp only [cmd_version, hst, beq_nil_false hne, Bool.false_eq_true, if_false,
    get_service_version]

lemma cmd_version_iqtimeout (e p0 t service : List Char)
    (hst : pyStrip service = service) (hne : service ≠ []) :
    (cmd_version (.iqTimeout e) [p0, t, service]).2
      = .ok ("Could not retrieve version for ".data ++ (service ++ (": ".data ++ e))) := by
  simp only [cmd_version, hst, beq_nil_false hne, Bool.false_eq_true, if_false,
    get_service_version]

lemma cmd_version_result_ok (xml : XmlElem) (q : XmlElem) (p0 t service : List Char)
    (hq : etFind ("\x7bjabber:iq:version\x7dquery".data) xml = some q)
    (hst : pyStrip service = service) (hne : service ≠ []) :
    ∃ s, (cmd_version (.result xml) [p0, t, service]).2 = .ok s := by
  simp only [cmd_version, hst, beq_nil_false hne, Bool.false_eq_true, if_false,
    get_service_version, hq]
  by_cases ht : truthyOpt (etFindtext ("\x7bjabber:iq:version\x7dos".data) q) = true
  · simp only [ht, if_true]
    exact ⟨_, rfl⟩
  · have ht' : truthyOpt (etFindtext ("\x7bjabber:iq:version\x7dos".data) q) = false := by
      simpa using ht
    simp only [ht', Bool.false_eq_true, if_false]
    exact ⟨_, rfl⟩

lemma cmd_contact_iqerror (e p0 t service : List Char)
    (hst : pyStrip service = service) (hne : service ≠ []) :
    (cmd_contact (.iqError e) [p0, t, service]).2
      = .ok ("Could not retrieve contact information for ".data ++ (service ++ (": ".data ++ e))) := by
  simp only [cmd_contact, hst, beq_nil_false hne, Bool.false_eq_true, if_false,
    get_service_contact_info]

lemma cmd_contact_iqtimeout (e p0 t service : List Char)
    (hst : pyStrip service = service) (hne : service ≠ []) :
    (cmd_contact (.iqTimeout e) [p0, t, service]).2
      = .ok ("Could not retrieve contact information for ".data ++ (service ++ (": ".data ++ e))) := by
  simp only [cmd_contact, hst, beq_nil_false hne, Bool.false_eq_true, if_false,
    get_service_contact_info]

lemma cmd_contact_result_ok (xml : XmlElem) (q : XmlElem) (p0 t service : List Char)
    (hq : etFind ("\x7bhttp://jabber.org/protocol/disco#info\x7dquery".data) xml = some q)
    (hst : pyStrip service = service) (hne : service ≠ []) :
    ∃ s, (cmd_contact (.result xml) [p0, t, service]).2 = .ok s := by
  simp only [cmd_contact, hst, beq_nil_false hne, Bool.false_eq_true, if_false,
    get_service_contact_info, hq]
  by_cases hc : ((etFindall ("\x7bjabber:x:data\x7dx".data) q).foldl formStep []).isEmpty = true
  · simp only [hc, Bool.not_true, Bool.false_eq_true, if_false]
    exact ⟨_, rfl⟩
  · have hc' : ((etFindall ("\x7bjabber:x:data\x7dx".data) q).foldl formStep []).isEmpty = false := by
      simpa using hc
    simp only [hc', Bool.not_false, if_true]
    exact ⟨_, rfl⟩

lemma cmd_items_iqerror (e p0 t service : List Char)
    (hst : pyStrip service = service) (hne : service ≠ []) :
    (cmd_items (.iqError e) [p0, t, service]).2
      = .ok ("Could not retrieve items for ".data ++ (service ++ (": ".data ++ e))) := by
  simp only [cmd_items, hst, beq_nil_false hne, Bool.false_eq_true, if_false]

lemma cmd_items_iqtimeout (e p0 t service : List Char)
    (hst : pyStrip service = service) (hne : service ≠ []) :
    (cmd_items (.iqTimeout e) [p0, t, service]).2
      = .ok ("Could not retrieve items for ".data ++ (service ++ (": ".data ++ e))) := by
  simp only [cmd_items, hst, beq_nil_false hne, Bool.false_eq_true, if_false]

lemma cmd_items_ok (its : List ServiceItem) (p0 t service : List Char)
    (hst : pyStrip service = service) (hne : service ≠ []) :
    ∃ s, (cmd_items (.items its) [p0, t, service]).2 = .ok s := by
  simp only [cmd_items, hst, beq_nil_false hne, Bool.false_eq_true, if_false]
  by_cases hi : its.isEmpty = true
  · simp only [hi, Bool.not_true, Bool.false_eq_true, if_false]
    exact ⟨_, rfl⟩
  · have hi' : its.isEmpty = false := by simpa using hi
    simp only [hi', Bool.not_false, if_true]
    exact ⟨_, rfl⟩

/-- C2 counterexample: for the recognized command `version` with a valid
service argument, a result reply lacking the expected query child element
makes `handle_command` end in an uncaught `AttributeError` instead of
returning a text string, so dispatch does raise past its boundary for such
replies. -/
theorem dispatch_attribute_error_escape :
    (handle_command { defaultOracles with version := .result xmlNoQuery }
        ("!xmpp version a.example".data)).response = .error .attributeError :=
  rfl

/-- C2 (amended): for every invocation of a recognized command
(version, items, contact) with a valid service argument, every fault reply
(`IqError` / `IqTimeout`) is caught and rendered as a user-facing error
line naming the target service and the fault reason, and a result reply
that contains the expected query child element also yields a text reply;
a result reply lacking that child instead raises `AttributeError`, which
is not caught (see the counterexample). -/
theorem dispatch_fault_rendering (service e : List Char) (o : Oracles)
    (hst : pyStrip service = service) (hne : service ≠ []) :
    ((handle_command { o with version := .iqError e } ("!xmpp version ".data ++ service)).response
      = .ok ("Could not retrieve version for ".data ++ (service ++ (": ".data ++ e))))
    ∧ ((handle_command { o with version := .iqTimeout e } ("!xmpp version ".data ++ service)).response
      = .ok ("Could not retrieve version for ".data ++ (service ++ (": ".data ++ e))))
    ∧ (∀ xml q, etFind ("\x7bjabber:iq:version\x7dquery".data) xml = some q →
        ∃ s, (handle_command { o with version := .result xml }
          ("!xmpp version ".data ++ service)).response = .ok s)
    ∧ ((handle_command { o with contact := .iqError e } ("!xmpp contact ".data ++ service)).response
      = .ok ("Could not retrieve contact information for ".data ++ (service ++ (": ".data ++ e))))
    ∧ ((handle_command { o with contact := .iqTimeout e } ("!xmpp contact ".data ++ service)).response
      = .ok ("Could not retrieve contact information for ".data ++ (service ++ (": ".data ++ e))))
    ∧ (∀ xml q, etFind ("\x7bhttp://jabber.org/protocol/disco#info\x7dquery".data) xml = some q →
        ∃ s, (handle_command { o with contact := .result xml }
          ("!xmpp contact ".data ++ service)).response = .ok s)
    ∧ ((handle_command { o with items := .iqError e } ("!xmpp items ".data ++ service)).response
      = .ok ("Could not retrieve items for ".data ++ (service ++ (": ".data ++ e))))
    ∧ ((handle_command { o with items := .iqTimeout e } ("!xmpp items ".data ++ service)).response
      = .ok ("Could not retrieve items for ".data ++ (service ++ (": ".data ++ e))))
    ∧ (∀ its, ∃ s, (handle_command { o with items := .items its }
        ("!xmpp items ".data ++ service)).response = .ok s) := by
  have hpv : pySplit 2 ("!xmpp version ".data ++ service)
      = ["!xmpp".data, "version".data, service] :=
    parts_cmd_arg ("version".data) service (by decide)
  have hpc : pySplit 2 ("!xmpp contact ".data ++ service)
      = ["!xmpp".data, "contact".data, service] :=
    parts_cmd_arg ("contact".data) service (by decide)
  have hpi : pySplit 2 ("!xmpp items ".data ++ service)
      = ["!xmpp".data, "items".data, service] :=
    parts_cmd_arg ("items".data) service (by decide)
  refine ⟨?_, ?_, ?_, ?_, ?_, ?_, ?_, ?_, ?_⟩
  · unfold handle_command
    rw [hpv]
    show (cmd_version (.iqError e) ["!xmpp".data, "version".data, service]).2 = _
    exact cmd_version_iqerror e _ _ service hst hne
  · unfold handle_command
    rw [hpv]
    show (cmd_version (.iqTimeout e) ["!xmpp".data, "version".data, service]).2 = _
    exact cmd_version_iqtimeout e _ _ service hst hne
  · intro xml q hq
    unfold handle_command
    rw [hpv]
    show ∃ s, (cmd_version (.result xml) ["!xmpp".data, "version".data, service]).2 = .ok s
    exact cmd_version_result_ok xml q _ _ service hq hst hne
  · unfold handle_command
    rw [hpc]
    show (cmd_contact (.iqError e) ["!xmpp".data, "contact".data, service]).2 = _
    exact cmd_contact_iqerror e _ _ service hst hne
  · unfold handle_command
    rw [hpc]
    show (cmd_contact (.iqTimeout e) ["!xmpp".data, "contact".data, service]).2 = _
    exact cmd_contact_iqtimeout e _ _ service hst hne
  · intro xml q hq
    unfold handle_command
    rw [hpc]
    show ∃ s, (cmd_contact (.result xml) ["!xmpp".data, "contact".data, service]).2 = .ok s
    exact cmd_contact_result_ok xml q _ _ service hq hst hne
  · unfold handle_command
    rw [hpi]
    show (cmd_items (.iqError e) ["!xmpp".data, "items".data, service]).2 = _
    exact cmd_items_iqerror e _ _ service hst hne
  · unfold handle_command
    rw [hpi]
    show (cmd_items (.iqTimeout e) ["!xmpp".data, "items".data, service]).2 = _
    exact cmd_items_iqtimeout e _ _ service hst hne
  · intro its
    unfold handle_command
    rw [hpi]
    show ∃ s, (cmd_items (.items its) ["!xmpp".data, "items".data, service]).2 = .ok s
    exact cmd_items_ok its _ _ service hst hne

/-- Witness for C2 (amended) at a concrete service and fault text. -/
theorem dispatch_fault_rendering_witness :
    (handle_command { defaultOracles with version := .iqError ("boom".data) }
        ("!xmpp version ".data ++ "a.example".data)).response
      = .ok ("Could not retrieve version for ".data ++ ("a.example".data ++ (": ".data ++ "boom".data))) :=
  (dispatch_fault_rendering ("a.example".data) ("boom".data) defaultOracles
    (by decide) (by decide)).1

/-- C5: for every body of the form `!xmpp <cmd>` or `!xmpp <cmd> ...`
whose command token is not one of help, version, items, contact, dispatch
returns exactly the fixed unknown-command message and no command handler
is invoked. -/
theorem unknown_command_reply (cmd rest : List Char) (o : Oracles)
    (hsp : ' ' ∉ cmd) (hst : pyStrip cmd = cmd) (hne : cmd ≠ [])
    (hnm : cmd ∉ [("help".data : List Char), "version".data, "items".data, "contact".data]) :
    handle_command o ("!xmpp ".data ++ cmd) = noDispatch (.ok unknown_msg)
    ∧ handle_command o ("!xmpp ".data ++ (cmd ++ (" ".data ++ rest)))
      = noDispatch (.ok unknown_msg) := by
  have e0 : (cmd == ([] : List Char)) = false := beq_nil_false hne
  have e1 : (cmd == "help".data) = false := by
    rw [beq_eq_false_iff_ne]
    intro h
    exact hnm (by rw [h]; simp)
  have e2 : (cmd == "version".data) = false := by
    rw [beq_eq_false_iff_ne]
    intro h
    exact hnm (by rw [h]; simp)
  have e3 : (cmd == "items".data) = false := by
    rw [beq_eq_false_iff_ne]
    intro h
    exact hnm (by rw [h]; simp)
  have e4 : (cmd == "contact".data) = false := by
    rw [beq_eq_false_iff_ne]
    intro h
    exact hnm (by rw [h]; simp)
  constructor
  · show handle_command o ("!xmpp".data ++ ' ' :: cmd) = noDispatch (.ok unknown_msg)
    unfold handle_command
    have hp : pySplit 2 ("!xmpp".data ++ ' ' :: cmd) = "!xmpp".data :: pySplit 1 cmd :=
      pySplit_succ_space 1 ("!xmpp".data) cmd (by decide)
    rw [hp, pySplit_succ_nospace 0 cmd hsp]
    simp only [dispatch_parts, hst, e0, e1, e2, e3, e4, Bool.false_eq_true, if_false]
  · show handle_command o ("!xmpp".data ++ ' ' :: (cmd ++ ' ' :: rest))
      = noDispatch (.ok unknown_msg)
    unfold handle_command
    rw [parts_cmd_arg cmd rest hsp]
    simp only [dispatch_parts, hst, e0, e1, e2, e3, e4, Bool.false_eq_true, if_false]

/-- Witness for C5 at the concrete unknown command `frobnicate`. -/
theorem unknown_command_reply_witness :
    handle_command defaultOracles ("!xmpp ".data ++ "frobnicate".data)
      = noDispatch (.ok unknown_msg) :=
  (unknown_command_reply ("frobnicate".data) ("x".data) defaultOracles
    (by decide) (by decide) (by decide) (by decide)).1

/-- C6: a body consisting of the trigger `!xmpp` alone or followed only by
whitespace makes `handle_command` return exactly the prompt, with no
handler invoked and nothing sent. -/
theorem bare_trigger_prompt (w : List Char) (o : Oracles)
    (h : ∀ c ∈ w, isPyWhitespace c = true) :
    handle_command o ("!xmpp".data ++ w) = noDispatch (.ok prompt_msg) := by
  unfold handle_command
  cases hw : splitFirst w with
  | none =>
    have hns : ' ' ∉ w := splitFirst_none_no_space hw
    have hp : pySplit 2 ("!xmpp".data ++ w) = ["!xmpp".data ++ w] :=
      pySplit_succ_nospace 1 _ (fun hm => mem_append_trigger hns hm)
    rw [hp]
    rfl
  | some p =>
    obtain ⟨x, y⟩ := p
    have hsound : w = x ++ ' ' :: y := splitFirst_sound hw
    have hx : ' ' ∉ x := splitFirst_left_no_space hw
    have hy : ∀ c ∈ y, isPyWhitespace c = true := by
      intro c hc
      refine h c ?_
      rw [hsound]
      exact List.mem_append.mpr (Or.inr (List.mem_cons_of_mem _ hc))
    have hsf : pySplit 2 ("!xmpp".data ++ w) = ("!xmpp".data ++ x) :: pySplit 1 y := by
      rw [hsound, show "!xmpp".data ++ (x ++ ' ' :: y) = ("!xmpp".data ++ x) ++ ' ' :: y from
        (List.append_assoc _ _ _).symm]
      exact pySplit_succ_space 1 _ y (fun hm => mem_append_trigger hx hm)
    rw [hsf]
    cases hy2 : splitFirst y with
    | none =>
      rw [pySplit_succ_nospace 0 y (splitFirst_none_no_space hy2)]
      have hb : (pyStrip y == ([] : List Char)) = true := by
        rw [pyStrip_ws hy]
        rfl
      simp only [dispatch_parts, hb, if_true]
    | some q =>
      obtain ⟨y1, y2⟩ := q
      have hys : y = y1 ++ ' ' :: y2 := splitFirst_sound hy2
      have hy1 : ∀ c ∈ y1, isPyWhitespace c = true := by
        intro c hc
        refine hy c ?_
        rw [hys]
        exact List.mem_append.mpr (Or.inl hc)
      rw [show pySplit 1 y = [y1, y2] from by
        rw [hys]
        exact pySplit_succ_space 0 y1 y2 (splitFirst_left_no_space hy2)]
      have hb : (pyStrip y1 == ([] : List Char)) = true := by
        rw [pyStrip_ws hy1]
        rfl
      simp only [dispatch_parts, hb, if_true]

/-- Witness for C6 at the concrete body with two trailing spaces. -/
theorem bare_trigger_prompt_witness :
    handle_command defaultOracles ("!xmpp".data ++ "  ".data)
      = noDispatch (.ok prompt_msg) :=
  bare_trigger_prompt ("  ".data) defaultOracles (by decide)

lemma pySplit_trigger_cmd_ws (cword tail : List Char) (hcw : ' ' ∉ cword)
    (h : ∀ c ∈ tail, isPyWhitespace c = true) :
    (∃ x, (∀ c ∈ x, isPyWhitespace c = true) ∧
       pySplit 2 ("!xmpp".data ++ ' ' :: (cword ++ tail)) = ["!xmpp".data, cword ++ x])
    ∨ (∃ x y, (∀ c ∈ x, isPyWhitespace c = true) ∧ (∀ c ∈ y, isPyWhitespace c = true) ∧
       pySplit 2 ("!xmpp".data ++ ' ' :: (cword ++ tail)) = ["!xmpp".data, cword ++ x, y]) := by
  have h1 : pySplit 2 ("!xmpp".data ++ ' ' :: (cword ++ tail))
      = "!xmpp".data :: pySplit 1 (cword ++ tail) :=
    pySplit_succ_space 1 ("!xmpp".data) (cword ++ tail) (by decide)
  cases ht : splitFirst tail with
  | none =>
    left
    refine ⟨tail, h, ?_⟩
    have hns : ' ' ∉ cword ++ tail := by
      intro hm
      rcases List.mem_append.mp hm with h2 | h3
      · exact hcw h2
      · exact splitFirst_none_no_space ht h3
    rw [h1, pySplit_succ_nospace 0 (cword ++ tail) hns]
  | some p =>
    obtain ⟨x, y⟩ := p
    right
    have hsound : tail = x ++ ' ' :: y := splitFirst_sound ht
    have hx : ∀ c ∈ x, isPyWhitespace c = true := by
      intro c hc
      refine h c ?_
      rw [hsound]
      exact List.mem_append.mpr (Or.inl hc)
    have hy : ∀ c ∈ y, isPyWhitespace c = true := by
      intro c hc
      refine h c ?_
      rw [hsound]
      exact List.mem_append.mpr (Or.inr (List.mem_cons_of_mem _ hc))
    refine ⟨x, y, hx, hy, ?_⟩
    have hns : ' ' ∉ cword ++ x := by
      intro hm
      rcases List.mem_append.mp hm with h2 | h3
      · exact hcw h2
      · exact splitFirst_left_no_space ht h3
    rw [h1]
    rw [show cword ++ tail = (cword ++ x) ++ ' ' :: y from by
      rw [hsound]
      exact (List.append_assoc _ _ _).symm]
    rw [pySplit_succ_space 0 (cword ++ x) y hns]
    rfl

lemma dispatch_ws_version2 (o : Oracles) (x : List Char)
    (hx : ∀ c ∈ x, isPyWhitespace c = true) :
    dispatch_parts o ["!xmpp".data, "version".data ++ x]
      = { invoked := some .version
          sentVersionIqs := []
          sentContactIqs := []
          sentItemsQueries := []
          response := .ok version_usage } := by
  have hst2 : pyStrip ("version".data ++ x) = "version".data := by
    rw [pyStrip_append_ws ("version".data) hx]
    decide
  have c0 : (pyStrip ("version".data ++ x) == ([] : List Char)) = false := by
    rw [hst2]
    decide
  have c1 : (pyStrip ("version".data ++ x) == "help".data) = false := by
    rw [hst2]
    decide
  have c2 : (pyStrip ("version".data ++ x) == "version".data) = true := by
    rw [hst2]
    decide
  simp only [dispatch_parts, c0, c1, c2, Bool.false_eq_true, if_false, if_true]
  rfl

lemma dispatch_ws_version3 (o : Oracles) (x y : List Char)
    (hx : ∀ c ∈ x, isPyWhitespace c = true) (hy : ∀ c ∈ y, isPyWhitespace c = true) :
    dispatch_parts o ["!xmpp".data, "version".data ++ x, y]
      = { invoked := some .version
          sentVersionIqs := []
          sentContactIqs := []
          sentItemsQueries := []
          response := .ok version_usage } := by
  have hst2 : pyStrip ("version".data ++ x) = "version".data := by
    rw [pyStrip_append_ws ("version".data) hx]
    decide
  have c0 : (pyStrip ("version".data ++ x) == ([] : List Char)) = false := by
    rw [hst2]
    decide
  have c1 : (pyStrip ("version".data ++ x) == "help".data) = false := by
    rw [hst2]
    decide
  have c2 : (pyStrip ("version".data ++ x) == "version".data) = true := by
    rw [hst2]
    decide
  have hb : (pyStrip y == ([] : List Char)) = true := by
    rw [pyStrip_ws hy]
    rfl
  simp only [dispatch_parts, c0, c1, c2, cmd_version, hb, Bool.false_eq_true,
    if_false, if_true]

lemma dispatch_ws_items2 (o : Oracles) (x : List Char)
    (hx : ∀ c ∈ x, isPyWhitespace c = true) :
    dispatch_parts o ["!xmpp".data, "items".data ++ x]
      = { invoked := some .items
          sentVersionIqs := []
          sentContactIqs := []
          sentItemsQueries := []
          response := .ok items_usage } := by
  have hst2 : pyStrip ("items".data ++ x) = "items".data := by
    rw [pyStrip_append_ws ("items".data) hx]
    decide
  have c0 : (pyStrip ("items".data ++ x) == ([] : List Char)) = false := by
    rw [hst2]
    decide
  have c1 : (pyStrip ("items".data ++ x) == "help".data) = false := by
    rw [hst2]
    decide
  have c2 : (pyStrip ("items".data ++ x) == "version".data) = false := by
    rw [hst2]
    decide
  have c3 : (pyStrip ("items".data ++ x) == "items".data) = true := by
    rw [hst2]
    decide
  simp only [dispatch_parts, c0, c1, c2, c3, Bool.false_eq_true, if_false, if_true]
  rfl

lemma dispatch_ws_items3 (o : Oracles) (x y : List Char)
    (hx : ∀ c ∈ x, isPyWhitespace c = true) (hy : ∀ c ∈ y, isPyWhitespace c = true) :
    dispatch_parts o ["!xmpp".data, "items".data ++ x, y]
      = { invoked := some .items
          sentVersionIqs := []
          sentContactIqs := []
          sentItemsQueries := []
          response := .ok items_usage } := by
  have hst2 : pyStrip ("items".data ++ x) = "items".data := by
    rw [pyStrip_append_ws ("items".data) hx]
    decide
  have c0 : (pyStrip ("items".data ++ x) == ([] : List Char)) = false := by
    rw [hst2]
    decide
  have c1 : (pyStrip ("items".data ++ x) == "help".data) = false := by
    rw [hst2]
    decide
  have c2 : (pyStrip ("items".data ++ x) == "version".data) = false := by
    rw [hst2]
    decide
  have c3 : (pyStrip ("items".data ++ x) == "items".data) = true := by
    rw [hst2]
    decide
  have hb : (pyStrip y == ([] : List Char)) = true := by
    rw [pyStrip_ws hy]
    rfl
  simp only [dispatch_parts, c0, c1, c2, c3, cmd_items, hb, Bool.false_eq_true,
    if_false, if_true]

lemma dispatch_ws_contact2 (o : Oracles) (x : List Char)
    (hx : ∀ c ∈ x, isPyWhitespace c = true) :
    dispatch_parts o ["!xmpp".data, "contact".data ++ x]
      = { invoked := some .contact
          sentVersionIqs := []
          sentContactIqs := []
          sentItemsQueries := []
          response := .ok contact_usage } := by
  have hst2 : pyStrip ("contact".data ++ x) = "contact".data := by
    rw [pyStrip_append_ws ("contact".data) hx]
    decide
  have c0 : (pyStrip ("contact".data ++ x) == ([] : List Char)) = false := by
    rw [hst2]
    decide
  have c1 : (pyStrip ("contact".data ++ x) == "help".data) = false := by
    rw [hst2]
    decide
  have c2 : (pyStrip ("contact".data ++ x) == "version".data) = false := by
    rw [hst2]
    decide
  have c3 : (pyStrip ("contact".data ++ x) == "items".data) = false := by
    rw [hst2]
    decide
  have c4 : (pyStrip ("contact".data ++ x) == "contact".data) = true := by
    rw [hst2]
    decide
  simp only [dispatch_parts, c0, c1, c2, c3, c4, Bool.false_eq_true, if_false, if_true]
  rfl

lemma dispatch_ws_contact3 (o : Oracles) (x y : List Char)
    (hx : ∀ c ∈ x, isPyWhitespace c = true) (hy : ∀ c ∈ y, isPyWhitespace c = true) :
    dispatch_parts o ["!xmpp".data, "contact".data ++ x, y]
      = { invoked := some .contact
          sentVersionIqs := []
          sentContactIqs := []
          sentItemsQueries := []
          response := .ok contact_usage } := by
  have hst2 : pyStrip ("contact".data ++ x) = "contact".data := by
    rw [pyStrip_append_ws ("contact".data) hx]
    decide
  have c0 : (pyStrip ("contact".data ++ x) == ([] : List Char)) = false := by
    rw [hst2]
    decide
  have c1 : (pyStrip ("contact".data ++ x) == "help".data) = false := by
    rw [hst2]
    decide
  have c2 : (pyStrip ("contact".data ++ x) == "version".data) = false := by
    rw [hst2]
    decide
  have c3 : (pyStrip ("contact".data ++ x) == "items".data) = false := by
    rw [hst2]
    decide
  have c4 : (pyStrip ("contact".data ++ x) == "contact".data) = true := by
    rw [hst2]
    decide
  have hb : (pyStrip y == ([] : List Char)) = true := by
    rw [pyStrip_ws hy]
    rfl
  simp only [dispatch_parts, c0, c1, c2, c3, c4, cmd_contact, hb, Bool.false_eq_true,
    if_false, if_true]

/-- C7: for each of version, items and contact, an invocation whose
service argument is missing or whitespace-only returns exactly that
command's usage text (name/description line plus Usage line), and no query
is issued to any service. -/
theorem missing_argument_usage (tail : List Char) (o : Oracles)
    (h : ∀ c ∈ tail, isPyWhitespace c = true) :
    handle_command o ("!xmpp version".data ++ tail)
      = { invoked := some .version
          sentVersionIqs := []
          sentContactIqs := []
          sentItemsQueries := []
          response := .ok version_usage }
    ∧ handle_command o ("!xmpp items".data ++ tail)
      = { invoked := some .items
          sentVersionIqs := []
          sentContactIqs := []
          sentItemsQueries := []
          response := .ok items_usage }
    ∧ handle_command o ("!xmpp contact".data ++ tail)
      = { invoked := some .contact
          sentVersionIqs := []
          sentContactIqs := []
          sentItemsQueries := []
          response := .ok contact_usage } := by
  refine ⟨?_, ?_, ?_⟩
  · show handle_command o ("!xmpp".data ++ ' ' :: ("version".data ++ tail)) = _
    unfold handle_command
    rcases pySplit_trigger_cmd_ws ("version".data) tail (by decide) h with
      ⟨x, hx, hp⟩ | ⟨x, y, hx, hy, hp⟩
    · rw [hp]
      exact dispatch_ws_version2 o x hx
    · rw [hp]
      exact dispatch_ws_version3 o x y hx hy
  · show handle_command o ("!xmpp".data ++ ' ' :: ("items".data ++ tail)) = _
    unfold handle_command
    rcases pySplit_trigger_cmd_ws ("items".data) tail (by decide) h with
      ⟨x, hx, hp⟩ | ⟨x, y, hx, hy, hp⟩
    · rw [hp]
      exact dispatch_ws_items2 o x hx
    · rw [hp]
      exact dispatch_ws_items3 o x y hx hy
  · show handle_command o ("!xmpp".data ++ ' ' :: ("contact".data ++ tail)) = _
    unfold handle_command
    rcases pySplit_trigger_cmd_ws ("contact".data) tail (by decide) h with
      ⟨x, hx, hp⟩ | ⟨x, y, hx, hy, hp⟩
    · rw [hp]
      exact dispatch_ws_contact2 o x hx
    · rw [hp]
      exact dispatch_ws_contact3 o x y hx hy

/-- Witness for C7 at a whitespace-only argument tail. -/
theorem missing_argument_usage_witness :
    handle_command defaultOracles ("!xmpp version".data ++ "   ".data)
      = { invoked := some .version
          sentVersionIqs := []
          sentContactIqs := []
          sentItemsQueries := []
          response := .ok version_usage } :=
  (missing_argument_usage ("   ".data) defaultOracles (by decide)).1

lemma fieldStep_eq (ci : ContactInfo) (f : XmlElem) :
    fieldStep ci f
      = if fieldRecognized f then dictSet ci (fieldVar f) (field_values f) else ci := by
  unfold fieldStep fieldRecognized fieldVar
  cases hg : etGet ("var".data) f with
  | none => simp
  | some v => simp

lemma dictSet_not_mem (d : ContactInfo) (k : List Char) (v : List (Option (List Char)))
    (h : ∀ p ∈ d, p.1 ≠ k) : dictSet d k v = d ++ [(k, v)] := by
  unfold dictSet
  have ha : (d.any fun p => p.1 == k) = false := by
    rw [List.any_eq_false]
    intro p hp
    simp only [beq_iff_eq]
    exact h p hp
  rw [ha]
  simp

lemma fields_foldl (fields : List XmlElem) : ∀ d : ContactInfo,
    (∀ f ∈ fields, fieldRecognized f = true → ∀ p ∈ d, p.1 ≠ fieldVar f) →
    ((fields.filter fieldRecognized).map fieldVar).Nodup →
    fields.foldl fieldStep d
      = d ++ (fields.filter fieldRecognized).map (fun f => (fieldVar f, field_values f)) := by
  induction fields with
  | nil =>
    intro d _ _
    simp
  | cons f rest ih =>
    intro d hdis hnd
    rw [List.foldl_cons, fieldStep_eq]
    by_cases hf : fieldRecognized f = true
    · simp only [hf, if_true]
      have hset : dictSet d (fieldVar f) (field_values f)
          = d ++ [(fieldVar f, field_values f)] :=
        dictSet_not_mem _ _ _ (hdis f (List.mem_cons_self f rest) hf)
      rw [hset]
      have hfil : (f :: rest).filter fieldRecognized = f :: rest.filter fieldRecognized := by
        simp [List.filter_cons, hf]
      rw [hfil] at hnd ⊢
      simp only [List.map_cons] at hnd
      rcases List.nodup_cons.mp hnd with ⟨hnotin, hnd2⟩
      rw [ih (d ++ [(fieldVar f, field_values f)]) ?_ hnd2]
      · simp
      · intro g hg hgr p hp
        rcases List.mem_append.mp hp with hpd | hpe
        · exact hdis g (List.mem_cons_of_mem _ hg) hgr p hpd
        · have hpv : p = (fieldVar f, field_values f) := by simpa using hpe
          rw [hpv]
          intro he
          apply hnotin
          have he2 : fieldVar f = fieldVar g := he
          rw [he2]
          exact List.mem_map.mpr ⟨g, List.mem_filter.mpr ⟨hg, hgr⟩, rfl⟩
    · have hf' : fieldRecognized f = false := by simpa using hf
      simp only [hf', Bool.false_eq_true, if_false]
      have hfil : (f :: rest).filter fieldRecognized = rest.filter fieldRecognized := by
        simp [List.filter_cons, hf']
      rw [hfil] at hnd ⊢
      exact ih d (fun g hg => hdis g (List.mem_cons_of_mem _ hg)) hnd

lemma forms_foldl (xs : List XmlElem) : ∀ d : ContactInfo,
    (∀ f ∈ recFieldsForms xs, ∀ p ∈ d, p.1 ≠ fieldVar f) →
    ((recFieldsForms xs).map fieldVar).Nodup →
    xs.foldl formStep d
      = d ++ (recFieldsForms xs).map (fun f => (fieldVar f, field_values f)) := by
  induction xs with
  | nil =>
    intro d _ _
    simp [recFieldsForms, concatMapL]
  | cons x rest ih =>
    intro d hdis hnd
    rw [List.foldl_cons]
    by_cases hx : formResult x = true
    · have hstep : formStep d x
          = (etFindall ("\x7bjabber:x:data\x7dfield".data) x).foldl fieldStep d := by
        unfold formStep
        simp [hx]
      rw [hstep]
      have hrec : recFieldsForms (x :: rest)
          = (etFindall ("\x7bjabber:x:data\x7dfield".data) x).filter fieldRecognized
            ++ recFieldsForms rest := by
        unfold recFieldsForms
        simp [List.filter_cons, hx, concatMapL]
      rw [hrec] at hdis hnd ⊢
      rw [List.map_append] at hnd
      rcases List.nodup_append.mp hnd with ⟨hnd1, hnd2, hdisj⟩
      rw [fields_foldl (etFindall ("\x7bjabber:x:data\x7dfield".data) x) d ?_ ?_]
      · rw [ih (d ++ ((etFindall ("\x7bjabber:x:data\x7dfield".data) x).filter fieldRecognized).map
            (fun f => (fieldVar f, field_values f))) ?_ hnd2]
        · simp [List.map_append]
        · intro g hg p hp
          rcases List.mem_append.mp hp with hpd | hpe
          · exact hdis g (List.mem_append.mpr (Or.inr hg)) p hpd
          · rcases List.mem_map.mp hpe with ⟨f2, hf2, hpf⟩
            rw [← hpf]
            intro he
            have hin1 : fieldVar f2
                ∈ ((etFindall ("\x7bjabber:x:data\x7dfield".data) x).filter fieldRecognized).map fieldVar :=
              List.mem_map.mpr ⟨f2, hf2, rfl⟩
            have hin2 : fieldVar g ∈ (recFieldsForms rest).map fieldVar :=
              List.mem_map.mpr ⟨g, hg, rfl⟩
            have he2 : fieldVar f2 = fieldVar g := he
            exact hdisj hin1 (by rw [he2]; exact hin2)
      · intro f hf hfr p hp
        exact hdis f (List.mem_append.mpr (Or.inl (List.mem_filter.mpr ⟨hf, hfr⟩))) p hp
      · exact hnd1
    · have hx' : formResult x = false := by simpa using hx
      have hstep : formStep d x = d := by
        unfold formStep
        simp [hx']
      have hrec : recFieldsForms (x :: rest) = recFieldsForms rest := by
        unfold recFieldsForms
        simp [List.filter_cons, hx', concatMapL]
      rw [hstep]
      rw [hrec] at hdis hnd ⊢
      exact ih d hdis hnd

/-- C4: for every disco#info result payload in which the recognized vars
are pairwise distinct across the `type="result"` data-forms,
`get_service_contact_info` decodes exactly the fields whose `var` is one of
the seven recognized contact categories, each mapped to all of its value
texts in document order, ignoring every other field; in particular the
claimed example (an `admin-addresses` field with two values plus an
`irrelevant-field` field) yields a ContactInfo holding only
`admin-addresses` mapped to those two values in order. -/
theorem contact_info_recognized_fields :
    (∀ (service : List Char) (xml q : XmlElem),
        etFind ("\x7bhttp://jabber.org/protocol/disco#info\x7dquery".data) xml = some q →
        ((recognized_result_fields q).map fieldVar).Nodup →
        (get_service_contact_info (.result xml) service).2 = .ok (contactInfoSpec q))
    ∧ (get_service_contact_info (.result exampleContactXml) ("xmpp.example.com".data)).2
        = .ok [("admin-addresses".data, [some ("v1".data), some ("v2".data)])] := by
  constructor
  · intro service xml q hq hnd
    simp only [get_service_contact_info, hq]
    have hfold := forms_foldl (etFindall ("\x7bjabber:x:data\x7dx".data) q) []
      (by intro f _ p hp; cases hp) hnd
    rw [hfold]
    simp [contactInfoSpec, recognized_result_fields]
  · rfl

/-- Witness for C4: the general part applied to the example payload, whose
recognized vars are distinct. -/
theorem contact_info_recognized_fields_witness :
    (get_service_contact_info (.result exampleContactXml) ("xmpp.example.com".data)).2
      = .ok (contactInfoSpec exampleContactQuery) :=
  contact_info_recognized_fields.1 ("xmpp.example.com".data) exampleContactXml
    exampleContactQuery (by rfl) (by decide)

/-- A disco#info result in which the recognized var `admin-addresses`
occurs in two fields (values a1 and b1 respectively). -/
def dupContactXml : XmlElem :=
  { tag := "iq".data
    attrs := []
    text := none
    children := [
      { tag := "\x7bhttp://jabber.org/protocol/disco#info\x7dquery".data
        attrs := []
        text := none
        children := [
          { tag := "\x7bjabber:x:data\x7dx".data
            attrs := [("type".data, "result".data)]
            text := none
            children := [
              { tag := "\x7bjabber:x:data\x7dfield".data
                attrs := [("var".data, "admin-addresses".data)]
                text := none
                children := [
                  { tag := "\x7bjabber:x:data\x7dvalue".data
                    attrs := []
                    text := some ("a1".data)
                    children := [] } ] },
              { tag := "\x7bjabber:x:data\x7dfield".data
                attrs := [("var".data, "admin-addresses".data)]
                text := none
                children := [
                  { tag := "\x7bjabber:x:data\x7dvalue".data
                    attrs := []
                    text := some ("b1".data)
                    children := [] } ] } ] } ] } ] }

/-- The query element inside `dupContactXml`. -/
def dupContactQuery : XmlElem :=
  { tag := "\x7bhttp://jabber.org/protocol/disco#info\x7dquery".data
    attrs := []
    text := none
    children := [
      { tag := "\x7bjabber:x:data\x7dx".data
        attrs := [("type".data, "result".data)]
        text := none
        children := [
          { tag := "\x7bjabber:x:data\x7dfield".data
            attrs := [("var".data, "admin-addresses".data)]
            text := none
            children := [
              { tag := "\x7bjabber:x:data\x7dvalue".data
                attrs := []
                text := some ("a1".data)
                children := [] } ] },
          { tag := "\x7bjabber:x:data\x7dfield".data
            attrs := [("var".data, "admin-addresses".data)]
            text := none
            children := [
              { tag := "\x7bjabber:x:data\x7dvalue".data
                attrs := []
                text := some ("b1".data)
                children := [] } ] } ] } ] }

/-- C4 counterexample: when the recognized var `admin-addresses` occurs in
two fields, the code's dict assignment keeps only the last field's values
([b1]): the first recognized field's value texts are dropped, so the
decoded ContactInfo matches neither the per-field reading of the claim
(both fields listed) nor a merged reading (all texts of both fields), even
though both fields are recognized. -/
theorem contact_info_duplicate_var_counterexample :
    (get_service_contact_info (.result dupContactXml) ("x.example".data)).2
      = .ok [("admin-addresses".data, [some ("b1".data)])]
    ∧ contactInfoSpec dupContactQuery
      = [("admin-addresses".data, [some ("a1".data)]),
         ("admin-addresses".data, [some ("b1".data)])]
    ∧ ([("admin-addresses".data, [some ("b1".data)])] : ContactInfo)
      ≠ [("admin-addresses".data, [some ("a1".data)]),
         ("admin-addresses".data, [some ("b1".data)])]
    ∧ ([("admin-addresses".data, [some ("b1".data)])] : ContactInfo)
      ≠ [("admin-addresses".data, [some ("a1".data), some ("b1".data)])] :=
  ⟨rfl, rfl, by decide, by decide⟩
